import Mathlib

/-!
Shallow embedding of the fractal-engine-deploy-example CDK application.

The repository declares four CDK stacks (network, Dogecoin node, database,
engine/application service) and composes them in a single app entry point.
Each stack is embedded as a Lean function from its props record to a record
of the resource attributes the stack declares; the app entry point is a
function from the process environment to the composed resource graph.
Definitions mirror the TypeScript sources:
  src/lib/network-stack.ts   -> NetworkStackProps, mkNetworkStack
  dogecoin-stack             -> DogecoinStackProps, mkDogecoinStack
  src/lib/database-stack.ts  -> DatabaseStackProps, mkDatabaseStack
  engine-stack               -> EngineStackProps, mkEngineStack
  bin app entry point        -> DeployEnv, mkApp, unit dependencies
-/

namespace FractalDeploy

/-- `ec2.SubnetType` values used in the repository. -/
inductive SubnetType where
  | PUBLIC
  | PRIVATE_WITH_EGRESS
  | PRIVATE_ISOLATED
deriving DecidableEq, Repr

/-- `ec2.SubnetSelection` as used here: a selection by subnet type. -/
structure SubnetSelection where
  subnetType : SubnetType
deriving DecidableEq, Repr

/-- The security groups created by the deployment: the four tier groups from
NetworkStack plus the security group CDK creates for the Dogecoin EFS
filesystem. -/
inductive SecurityGroupId where
  | albSg
  | engineSg
  | rdsSg
  | dogeSg
  | efsSg
deriving DecidableEq, Repr

/-- A connection peer of a security-group rule: another security group or
`ec2.Peer.anyIpv4()`. -/
inductive Peer where
  | sg (g : SecurityGroupId)
  | anyIpv4
deriving DecidableEq, Repr

/-- An ingress rule: traffic to `target` from `source` on TCP `port` is
allowed.  Security groups deny all ingress not covered by a rule. -/
structure IngressRule where
  target : SecurityGroupId
  source : Peer
  port : Nat
deriving DecidableEq, Repr

/-- One entry of the VPC `subnetConfiguration`. -/
structure SubnetConfig where
  name : String
  subnetType : SubnetType
  cidrMask : Nat
deriving DecidableEq, Repr

/-- Props of NetworkStack (src/lib/network-stack.ts). -/
structure NetworkStackProps where
  cidr : Option String := none
  natGateways : Option Nat := none
deriving DecidableEq, Repr

/-- Resources declared by NetworkStack. -/
structure NetworkStack where
  vpcCidr : String
  natGateways : Nat
  subnetConfiguration : List SubnetConfig
  namespaceName : String
  ingressRules : List IngressRule
deriving DecidableEq, Repr

/-- NetworkStack constructor (src/lib/network-stack.ts lines 37-200):
VPC with three subnet tiers, the `fractal.local` private DNS namespace, the
four security groups and their ingress rules. -/
def mkNetworkStack (props : NetworkStackProps) : NetworkStack :=
  { vpcCidr := props.cidr.getD "10.0.0.0/16"
  , natGateways := props.natGateways.getD 1
  , subnetConfiguration :=
      [ { name := "public", subnetType := .PUBLIC, cidrMask := 24 }
      , { name := "app", subnetType := .PRIVATE_WITH_EGRESS, cidrMask := 24 }
      , { name := "data", subnetType := .PRIVATE_ISOLATED, cidrMask := 24 } ]
  , namespaceName := "fractal.local"
  , ingressRules :=
      [ { target := .albSg, source := .anyIpv4, port := 80 }
      , { target := .engineSg, source := .sg .albSg, port := 8891 }
      , { target := .rdsSg, source := .sg .engineSg, port := 5432 }
      , { target := .dogeSg, source := .sg .engineSg, port := 22555 }
      , { target := .dogeSg, source := .sg .engineSg, port := 22556 }
      , { target := .dogeSg, source := .sg .engineSg, port := 28000 } ] }

/-- Props of DogecoinStack (dogecoin-stack source, lines 11-39).  The
`vpc`, `dogeSecurityGroup` and `namespace` handles come from NetworkStack;
only the pieces the stack actually reads are carried here. -/
structure DogecoinStackProps where
  dogeSecurityGroup : SecurityGroupId
  namespaceRef : String := "fractal.local"
  subnetSelection : Option SubnetSelection := none
  desiredCount : Option Nat := none
  cpu : Option Nat := none
  memoryMiB : Option Nat := none
  containerImage : Option String := none
  namespaceName : Option String := none
  serviceName : Option String := none
  rpcPort : Option Nat := none
  p2pPort : Option Nat := none
  zmqPort : Option Nat := none
  environment : List (String × String) := []
deriving DecidableEq, Repr

/-- Resources declared by DogecoinStack. -/
structure DogecoinStack where
  efsVpcSubnets : SubnetSelection
  efsIngressRule : IngressRule
  serviceVpcSubnets : SubnetSelection
  assignPublicIp : Bool
  cloudMapServiceName : String
  serviceDiscoveryName : String
  rpcPort : Nat
  p2pPort : Nat
  zmqPort : Nat
  containerImage : String
  containerEnvironment : List (String × String)
  portMappings : List Nat
  desiredCount : Nat
  cpu : Nat
  memoryMiB : Nat
deriving DecidableEq, Repr

/-- DogecoinStack constructor (dogecoin-stack source, lines 54-283).
Both the EFS filesystem and the Fargate service use
`props.vpc.selectSubnets(subnetType PRIVATE_WITH_EGRESS)`; the declared
`subnetSelection` prop is never read.  `allowDefaultPortFrom` adds one
ingress rule to the EFS security group: NFS (TCP 2049) from the Dogecoin
security group.  The exported discovery name is
`serviceName ++ "." ++ namespaceName`. -/
def mkDogecoinStack (props : DogecoinStackProps) : DogecoinStack :=
  let rpcPort := props.rpcPort.getD 22555
  let p2pPort := props.p2pPort.getD 22556
  let zmqPort := props.zmqPort.getD 28000
  let namespaceName := props.namespaceName.getD "fractal.local"
  let serviceName := props.serviceName.getD "dogecoin"
  let subnets : SubnetSelection := { subnetType := .PRIVATE_WITH_EGRESS }
  { efsVpcSubnets := subnets
  , efsIngressRule :=
      { target := .efsSg, source := .sg props.dogeSecurityGroup, port := 2049 }
  , serviceVpcSubnets := subnets
  , assignPublicIp := false
  , cloudMapServiceName := serviceName
  , serviceDiscoveryName := serviceName ++ "." ++ namespaceName
  , rpcPort := rpcPort
  , p2pPort := p2pPort
  , zmqPort := zmqPort
  , containerImage :=
      props.containerImage.getD "docker.io/danielwhelansb/dogecoin:v1.14.9"
  , containerEnvironment :=
      (props.environment.filter (fun kv => kv.1 ≠ "DATADIR"))
        ++ [("DATADIR", "/data")]
  , portMappings := [rpcPort, p2pPort, zmqPort]
  , desiredCount := props.desiredCount.getD 1
  , cpu := props.cpu.getD 512
  , memoryMiB := props.memoryMiB.getD 1024 }

/-- The PostgreSQL engine choice of the database stack. -/
inductive DbEngine where
  | postgres (major : String) (minor : String)
deriving DecidableEq, Repr

/-- Generated-secret options of `rds.Credentials.fromGeneratedSecret`. -/
structure GeneratedSecret where
  username : String
  secretName : String
  excludeCharacters : String
deriving DecidableEq, Repr

/-- The endpoint of the provisioned RDS instance.  No `port` prop is set on
the instance, so it listens on the PostgreSQL engine default 5432; the
hostname is only known at deploy time and is referenced through the
CloudFormation attribute of the `FractalDb` resource. -/
structure InstanceEndpoint where
  hostnameRef : String
  port : Nat
deriving DecidableEq, Repr

/-- Attributes of the provisioned `rds.DatabaseInstance`. -/
structure RdsInstance where
  vpcSubnets : SubnetSelection
  securityGroups : List SecurityGroupId
  engine : DbEngine
  databaseName : String
  instanceType : String
  multiAz : Bool
  allocatedStorage : Nat
  maxAllocatedStorage : Nat
  publiclyAccessible : Bool
  deletionProtection : Bool
  backupRetentionDays : Nat
  instanceEndpoint : InstanceEndpoint
deriving DecidableEq, Repr

/-- Props of DatabaseStack (src/lib/database-stack.ts lines 8-23). -/
structure DatabaseStackProps where
  rdsSecurityGroup : SecurityGroupId
  databaseName : Option String := none
  dbSubnetSelection : Option SubnetSelection := none
  instanceType : Option String := none
  multiAz : Option Bool := none
  allocatedStorageGiB : Option Nat := none
  maxAllocatedStorageGiB : Option Nat := none
  deletionProtection : Option Bool := none
  backupRetentionDays : Option Nat := none
  credentialsSecretName : Option String := none
deriving DecidableEq, Repr

/-- Resources declared by DatabaseStack. -/
structure DatabaseStack where
  credentials : GeneratedSecret
  rdsInstance : RdsInstance
deriving DecidableEq, Repr

/-- DatabaseStack constructor (src/lib/database-stack.ts lines 35-89). -/
def mkDatabaseStack (props : DatabaseStackProps) : DatabaseStack :=
  let databaseName := props.databaseName.getD "fractal"
  { credentials :=
      { username := "fractal_engine"
      , secretName :=
          props.credentialsSecretName.getD "FractalEngineRdsCredentials"
      , excludeCharacters := "\"@/\\:?#[]\x7b\x7d|^~;=%&+()<>" }
  , rdsInstance :=
      { vpcSubnets :=
          props.dbSubnetSelection.getD { subnetType := .PRIVATE_ISOLATED }
      , securityGroups := [props.rdsSecurityGroup]
      , engine := .postgres "15" "15"
      , databaseName := databaseName
      , instanceType := props.instanceType.getD "t3.micro"
      , multiAz := props.multiAz.getD false
      , allocatedStorage := props.allocatedStorageGiB.getD 20
      , maxAllocatedStorage := props.maxAllocatedStorageGiB.getD 100
      , publiclyAccessible := false
      , deletionProtection := props.deletionProtection.getD false
      , backupRetentionDays := props.backupRetentionDays.getD 3
      , instanceEndpoint :=
          { hostnameRef := "FractalDb.Endpoint.Address", port := 5432 } } }

/-- `DogecoinConnection` (engine-stack source, lines 11-15). -/
structure DogecoinConnection where
  host : String
  rpcPort : Option Nat := none
  zmqPort : Option Nat := none
deriving DecidableEq, Repr

/-- A container secret reference: Secrets Manager secret id and JSON field,
as produced by `ecs.Secret.fromSecretsManager`. -/
structure SecretRef where
  secretId : String
  field : String
deriving DecidableEq, Repr

/-- Target-group health check (engine-stack source, lines 230-234). -/
structure HealthCheck where
  path : String
  healthyHttpCodes : String
  intervalSeconds : Nat
deriving DecidableEq, Repr

/-- The ALB target group for the engine service. -/
structure TargetGroup where
  port : Nat
  healthCheck : HealthCheck
  deregistrationDelaySeconds : Nat
deriving DecidableEq, Repr

/-- An ALB listener. -/
structure Listener where
  port : Nat
deriving DecidableEq, Repr

/-- Props of EngineStack (engine-stack source, lines 17-43).  As with the
other stacks, the network handles are carried as identifiers. -/
structure EngineStackProps where
  albSecurityGroup : SecurityGroupId
  engineSecurityGroup : SecurityGroupId
  dbHost : String
  dbPort : Option Nat := none
  dbSecret : String
  databaseName : Option String := none
  dogecoin : Option DogecoinConnection := none
  desiredCount : Option Nat := none
  cpu : Option Nat := none
  memoryMiB : Option Nat := none
  engineContainerImage : Option String := none
  appSubnetSelection : Option SubnetSelection := none
  albSubnetSelection : Option SubnetSelection := none
deriving DecidableEq, Repr

/-- Resources declared by EngineStack. -/
structure EngineStack where
  containerImage : String
  containerEnvironment : List (String × String)
  containerSecrets : List (String × SecretRef)
  portMappings : List Nat
  serviceSecurityGroups : List SecurityGroupId
  serviceVpcSubnets : SubnetSelection
  assignPublicIp : Bool
  desiredCount : Nat
  cpu : Nat
  memoryMiB : Nat
  albSecurityGroup : SecurityGroupId
  albVpcSubnets : SubnetSelection
  internetFacing : Bool
  httpListener : Listener
  targetGroup : TargetGroup
deriving DecidableEq, Repr

/-- The engine container environment (engine-stack source, lines 158-172):
six fixed entries, then — via object spread — the three Dogecoin entries
exactly when `props.dogecoin?.host` is truthy (a connection is supplied and
its host string is nonempty). -/
def mkEngineEnvironment (props : EngineStackProps) : List (String × String) :=
  [ ("RPC_SERVER_HOST", "0.0.0.0")
  , ("RPC_SERVER_PORT", "8891")
  , ("CORS_ALLOWED_ORIGINS", "*")
  , ("DATABASE_HOST", props.dbHost)
  , ("DATABASE_PORT", toString (props.dbPort.getD 5432))
  , ("DATABASE_NAME", props.databaseName.getD "fractal") ]
  ++ (match props.dogecoin with
      | some conn =>
          if conn.host ≠ "" then
            [ ("DOGE_HOST", conn.host)
            , ("DOGE_PORT", toString (conn.rpcPort.getD 22555))
            , ("DOGECOIN_ZMQ_PORT", toString (conn.zmqPort.getD 28000)) ]
          else []
      | none => [])

/-- EngineStack constructor (engine-stack source, lines 57-255). -/
def mkEngineStack (props : EngineStackProps) : EngineStack :=
  { containerImage :=
      props.engineContainerImage.getD
        "ghcr.io/dogecoinfoundation/fractal-engine:v0.0.1"
  , containerEnvironment := mkEngineEnvironment props
  , containerSecrets :=
      [ ("DATABASE_USERNAME", { secretId := props.dbSecret, field := "username" })
      , ("DATABASE_PASSWORD", { secretId := props.dbSecret, field := "password" }) ]
  , portMappings := [8891, 8086]
  , serviceSecurityGroups := [props.engineSecurityGroup]
  , serviceVpcSubnets :=
      props.appSubnetSelection.getD { subnetType := .PRIVATE_WITH_EGRESS }
  , assignPublicIp := false
  , desiredCount := props.desiredCount.getD 1
  , cpu := props.cpu.getD 512
  , memoryMiB := props.memoryMiB.getD 1024
  , albSecurityGroup := props.albSecurityGroup
  , albVpcSubnets :=
      props.albSubnetSelection.getD { subnetType := .PUBLIC }
  , internetFacing := true
  , httpListener := { port := 80 }
  , targetGroup :=
      { port := 8891
      , healthCheck :=
          { path := "/health", healthyHttpCodes := "200", intervalSeconds := 30 }
      , deregistrationDelaySeconds := 10 } }

/-- The four deployment units of the app entry point. -/
inductive DeployUnit where
  | network
  | doge
  | db
  | engine
deriving DecidableEq, Repr

/-- All four units, in declaration order of the app entry point. -/
def allUnits : List DeployUnit := [.network, .doge, .db, .engine]

/-- `unitDependsOn a b` holds when unit `a` must deploy after unit `b`.
The engine's dependencies on the Dogecoin and database stacks are the two
explicit `addDependency` calls of the app entry point (lines 45-46); the
remaining edges are the implicit stack dependencies CDK derives from the
cross-stack references in the props (`network.vpc`, the security groups,
`network.namespace`, `db.rdsInstance`, `db.rdsSecret`,
`doge.serviceDiscoveryName`). -/
def unitDependsOn : DeployUnit → DeployUnit → Bool
  | .doge, .network => true
  | .db, .network => true
  | .engine, .network => true
  | .engine, .doge => true
  | .engine, .db => true
  | _, _ => false

/-- A deployment ordering: a permutation of the four units in which every
unit comes after all units it depends on. -/
def validOrdering (l : List DeployUnit) : Prop :=
  l.Perm allUnits ∧
    ∀ a ∈ allUnits, ∀ b ∈ allUnits,
      unitDependsOn a b = true → l.indexOf b < l.indexOf a

instance (l : List DeployUnit) : Decidable (validOrdering l) := by
  unfold validOrdering; infer_instance

/-- Process environment read by the app entry point: `CDK_DEFAULT_ACCOUNT`
and `CDK_DEFAULT_REGION`. -/
structure DeployEnv where
  account : Option String
  region : Option String
deriving DecidableEq, Repr

/-- The composed resource graph produced by one run of the app. -/
structure App where
  env : DeployEnv
  network : NetworkStack
  doge : DogecoinStack
  db : DatabaseStack
  engine : EngineStack
  dependencies : List (DeployUnit × DeployUnit)
deriving DecidableEq, Repr

/-- The app entry point: builds the four stacks with the wiring of the
bin source (lines 8-46) and records the dependency edges. -/
def mkApp (env : DeployEnv) : App :=
  let network := mkNetworkStack {}
  let doge := mkDogecoinStack { dogeSecurityGroup := .dogeSg }
  let db := mkDatabaseStack { rdsSecurityGroup := .rdsSg }
  let engine := mkEngineStack
    { albSecurityGroup := .albSg
    , engineSecurityGroup := .engineSg
    , dbHost := db.rdsInstance.instanceEndpoint.hostnameRef
    , dbPort := some db.rdsInstance.instanceEndpoint.port
    , dbSecret := db.credentials.secretName
    , dogecoin := some
        { host := doge.serviceDiscoveryName
        , rpcPort := some doge.rpcPort
        , zmqPort := some doge.zmqPort } }
  { env := env
  , network := network
  , doge := doge
  , db := db
  , engine := engine
  , dependencies :=
      (allUnits.product allUnits).filter (fun p => unitDependsOn p.1 p.2) }

/-- All ingress rules of the deployed graph: the NetworkStack rules plus the
EFS rule added by DogecoinStack. -/
def allIngressRules (a : App) : List IngressRule :=
  a.network.ingressRules ++ [a.doge.efsIngressRule]

/-- Whether the graph allows ingress to security group `dst` from security
group `src` on TCP `port`. -/
def ingressAllowed (a : App) (src dst : SecurityGroupId) (port : Nat) : Bool :=
  (allIngressRules a).contains { target := dst, source := .sg src, port := port }

/-- The four tier security groups of the spec (ALB, engine, database,
blockchain node). -/
def tierSgs : List SecurityGroupId := [.albSg, .engineSg, .rdsSg, .dogeSg]

/-- The declared cross-tier paths: (source tier, destination tier, port). -/
def declaredPaths : List (SecurityGroupId × SecurityGroupId × Nat) :=
  [ (.albSg, .engineSg, 8891)
  , (.engineSg, .rdsSg, 5432)
  , (.engineSg, .dogeSg, 22555)
  , (.engineSg, .dogeSg, 22556)
  , (.engineSg, .dogeSg, 28000) ]

/-- Whether an engine props record supplies a Dogecoin connection with a
(nonempty, hence truthy) host — the condition `props.dogecoin?.host` of the
engine-stack source. -/
def hasDogeHost (props : EngineStackProps) : Bool :=
  match props.dogecoin with
  | some conn => conn.host != ""
  | none => false

/-- C1: for every value of the `databaseName` option, the name given to the
provisioned database resource and the `DATABASE_NAME` environment value set
on the application-service container are identical; changing the option
changes both values in the same way. -/
theorem databaseName_propagates_identically (v : Option String)
    (dbProps : DatabaseStackProps) (engProps : EngineStackProps)
    (hdb : dbProps.databaseName = v) (heng : engProps.databaseName = v) :
    some (mkDatabaseStack dbProps).rdsInstance.databaseName
      = (mkEngineStack engProps).containerEnvironment.lookup "DATABASE_NAME" := by
  have h1 : (mkEngineStack engProps).containerEnvironment.lookup "DATABASE_NAME"
      = some (engProps.databaseName.getD "fractal") := rfl
  have h2 : (mkDatabaseStack dbProps).rdsInstance.databaseName
      = dbProps.databaseName.getD "fractal" := rfl
  rw [h1, h2, hdb, heng]

/-- Witness for C1 at the concrete option value `some "mydb"`. -/
theorem databaseName_propagates_identically_witness :
    some (mkDatabaseStack
        { rdsSecurityGroup := .rdsSg, databaseName := some "mydb" }).rdsInstance.databaseName
      = (mkEngineStack
          { albSecurityGroup := .albSg, engineSecurityGroup := .engineSg
          , dbHost := "h", dbSecret := "s"
          , databaseName := some "mydb" }).containerEnvironment.lookup "DATABASE_NAME" :=
  databaseName_propagates_identically (some "mydb") _ _ rfl rfl

/-- C4: the blockchain-node unit's exported service-discovery hostname is the
concatenation `<service-name>.<namespace-name>` of its `serviceName` and
`namespaceName` options, and when both options are omitted it is
`dogecoin.fractal.local`. -/
theorem dogecoin_service_discovery_name :
    (∀ p : DogecoinStackProps,
      (mkDogecoinStack p).serviceDiscoveryName
        = p.serviceName.getD "dogecoin" ++ "." ++ p.namespaceName.getD "fractal.local")
    ∧ (mkDogecoinStack { dogeSecurityGroup := .dogeSg }).serviceDiscoveryName
        = "dogecoin.fractal.local" :=
  ⟨fun _ => rfl, rfl⟩

/-- C7: the application load balancer has an HTTP listener on port 80, and
the target group's health check uses path `/health`, success code 200 and a
30-second interval, with a 10-second deregistration delay. -/
theorem engine_alb_listener_and_health_check (p : EngineStackProps) :
    (mkEngineStack p).httpListener.port = 80
    ∧ (mkEngineStack p).targetGroup.healthCheck.path = "/health"
    ∧ (mkEngineStack p).targetGroup.healthCheck.healthyHttpCodes = "200"
    ∧ (mkEngineStack p).targetGroup.healthCheck.intervalSeconds = 30
    ∧ (mkEngineStack p).targetGroup.deregistrationDelaySeconds = 10 :=
  ⟨rfl, rfl, rfl, rfl, rfl⟩

/-- C9: for every input configuration of the blockchain-node unit, both the
EFS filesystem and the Fargate service are placed in the
PRIVATE_WITH_EGRESS subnets, and supplying the declared `subnetSelection`
option changes nothing in the produced stack. -/
theorem dogecoin_subnets_ignore_selection (p : DogecoinStackProps) :
    (mkDogecoinStack p).efsVpcSubnets = { subnetType := .PRIVATE_WITH_EGRESS }
    ∧ (mkDogecoinStack p).serviceVpcSubnets = { subnetType := .PRIVATE_WITH_EGRESS }
    ∧ ∀ s : Option SubnetSelection,
        mkDogecoinStack { p with subnetSelection := s } = mkDogecoinStack p :=
  ⟨rfl, rfl, fun _ => rfl⟩

/-- C10: for every input configuration of the database unit, the provisioned
instance has `publiclyAccessible = false`, and its subnets are the
`dbSubnetSelection` option with PRIVATE_ISOLATED as the default — so no
option can make the instance publicly accessible. -/
theorem database_never_publicly_accessible (p : DatabaseStackProps) :
    (mkDatabaseStack p).rdsInstance.publiclyAccessible = false
    ∧ (mkDatabaseStack p).rdsInstance.vpcSubnets
        = p.dbSubnetSelection.getD { subnetType := .PRIVATE_ISOLATED } :=
  ⟨rfl, rfl⟩

/-- C5: for every input configuration, the application-service container
environment contains the six fixed variables and the two secret-backed
credentials, and the three Dogecoin variables are present exactly when a
Dogecoin connection with a (truthy) host is supplied. -/
theorem engine_container_env_surface (p : EngineStackProps) :
    ((mkEngineStack p).containerEnvironment.lookup "RPC_SERVER_HOST" = some "0.0.0.0")
    ∧ ((mkEngineStack p).containerEnvironment.lookup "RPC_SERVER_PORT" = some "8891")
    ∧ ((mkEngineStack p).containerEnvironment.lookup "CORS_ALLOWED_ORIGINS" = some "*")
    ∧ ((mkEngineStack p).containerEnvironment.lookup "DATABASE_HOST" = some p.dbHost)
    ∧ ((mkEngineStack p).containerEnvironment.lookup "DATABASE_PORT"
        = some (toString (p.dbPort.getD 5432)))
    ∧ ((mkEngineStack p).containerEnvironment.lookup "DATABASE_NAME"
        = some (p.databaseName.getD "fractal"))
    ∧ ((mkEngineStack p).containerSecrets.lookup "DATABASE_USERNAME"
        = some { secretId := p.dbSecret, field := "username" })
    ∧ ((mkEngineStack p).containerSecrets.lookup "DATABASE_PASSWORD"
        = some { secretId := p.dbSecret, field := "password" })
    ∧ (((mkEngineStack p).containerEnvironment.lookup "DOGE_HOST").isSome = hasDogeHost p)
    ∧ (((mkEngineStack p).containerEnvironment.lookup "DOGE_PORT").isSome = hasDogeHost p)
    ∧ (((mkEngineStack p).containerEnvironment.lookup "DOGECOIN_ZMQ_PORT").isSome
        = hasDogeHost p) := by
  refine ⟨rfl, rfl, rfl, rfl, rfl, rfl, rfl, rfl, ?_, ?_, ?_⟩ <;>
  · rcases hp : p.dogecoin with _ | conn
    · simp [mkEngineStack, mkEngineEnvironment, hasDogeHost, hp, List.lookup]
    · by_cases hh : conn.host = "" <;>
        simp [mkEngineStack, mkEngineEnvironment, hasDogeHost, hp, hh, List.lookup]

/-- C6: with the corresponding options omitted, the database unit provisions
a PostgreSQL engine with database name `fractal`, generated credentials
excluding the documented character set, and the application-service unit
sets `DATABASE_PORT` to `5432`; the defaulted environment entries occur
exactly once in the container environment. -/
theorem omitted_option_defaults (dbProps : DatabaseStackProps)
    (engProps : EngineStackProps)
    (hdb : dbProps.databaseName = none) (hport : engProps.dbPort = none) :
    ((mkDatabaseStack dbProps).rdsInstance.engine = DbEngine.postgres "15" "15")
    ∧ ((mkDatabaseStack dbProps).rdsInstance.databaseName = "fractal")
    ∧ ((mkDatabaseStack dbProps).credentials.excludeCharacters
        = "\"@/\\:?#[]\x7b\x7d|^~;=%&+()<>")
    ∧ ((mkEngineStack engProps).containerEnvironment.lookup "DATABASE_PORT"
        = some "5432")
    ∧ ((mkEngineStack engProps).containerEnvironment.countP
        (fun kv => kv.1 == "DATABASE_PORT") = 1)
    ∧ ((mkEngineStack engProps).containerEnvironment.countP
        (fun kv => kv.1 == "DATABASE_NAME") = 1) := by
  refine ⟨rfl, by rw [show (mkDatabaseStack dbProps).rdsInstance.databaseName
      = dbProps.databaseName.getD "fractal" from rfl, hdb]; rfl, rfl,
    by rw [show (mkEngineStack engProps).containerEnvironment.lookup "DATABASE_PORT"
      = some (toString (engProps.dbPort.getD 5432)) from rfl, hport]; rfl, ?_, ?_⟩ <;>
  · rcases hp : engProps.dogecoin with _ | conn
    · simp [mkEngineStack, mkEngineEnvironment, hp, List.countP_cons]
    · by_cases hh : conn.host = "" <;>
        simp [mkEngineStack, mkEngineEnvironment, hp, hh, List.countP_cons]

/-- Witness for C6 at concrete props with the options omitted. -/
theorem omitted_option_defaults_witness :
    ((mkDatabaseStack { rdsSecurityGroup := .rdsSg }).rdsInstance.databaseName
      = "fractal")
    ∧ ((mkEngineStack
        { albSecurityGroup := .albSg, engineSecurityGroup := .engineSg
        , dbHost := "h", dbSecret := "s" }).containerEnvironment.lookup
          "DATABASE_PORT" = some "5432") :=
  ⟨(omitted_option_defaults { rdsSecurityGroup := .rdsSg }
      { albSecurityGroup := .albSg, engineSecurityGroup := .engineSg
      , dbHost := "h", dbSecret := "s" } rfl rfl).2.1,
   (omitted_option_defaults { rdsSecurityGroup := .rdsSg }
      { albSecurityGroup := .albSg, engineSecurityGroup := .engineSg
      , dbHost := "h", dbSecret := "s" } rfl rfl).2.2.2.1⟩

/-- C3: in every deployment ordering produced by the composition, the
application-service unit deploys after both the blockchain-node unit and
the database unit, and the network unit deploys before the blockchain-node
and database units. -/
theorem deployment_ordering_respected (l : List DeployUnit)
    (h : validOrdering l) :
    l.indexOf DeployUnit.network < l.indexOf DeployUnit.doge
    ∧ l.indexOf DeployUnit.network < l.indexOf DeployUnit.db
    ∧ l.indexOf DeployUnit.doge < l.indexOf DeployUnit.engine
    ∧ l.indexOf DeployUnit.db < l.indexOf DeployUnit.engine := by
  obtain ⟨-, h2⟩ := h
  exact ⟨h2 .doge (by decide) .network (by decide) rfl,
         h2 .db (by decide) .network (by decide) rfl,
         h2 .engine (by decide) .doge (by decide) rfl,
         h2 .engine (by decide) .db (by decide) rfl⟩

/-- Witness for C3 at the declaration-order deployment list. -/
theorem deployment_ordering_respected_witness :
    validOrdering [DeployUnit.network, DeployUnit.doge, DeployUnit.db,
      DeployUnit.engine]
    ∧ ([DeployUnit.network, DeployUnit.doge, DeployUnit.db,
        DeployUnit.engine].indexOf DeployUnit.network
          < [DeployUnit.network, DeployUnit.doge, DeployUnit.db,
            DeployUnit.engine].indexOf DeployUnit.doge) :=
  ⟨by decide, (deployment_ordering_respected _ (by decide)).1⟩

/-- C8: running the composition twice with identical inputs (option values
and `CDK_DEFAULT_ACCOUNT` / `CDK_DEFAULT_REGION`) produces identical
resource graphs: the app entry point is a pure function of the process
environment. -/
theorem app_deterministic (e1 e2 : DeployEnv) (h : e1 = e2) :
    mkApp e1 = mkApp e2 :=
  congrArg mkApp h

/-- Witness for C8 at a concrete environment. -/
theorem app_deterministic_witness :
    mkApp { account := some "000000000000", region := some "us-east-1" }
      = mkApp { account := some "000000000000", region := some "us-east-1" } :=
  app_deterministic _ _ rfl

/-- C2: in the produced network configuration, cross-tier ingress between
the four tier security groups is permitted exactly along the declared
paths (ALB→engine:8891, engine→db:5432, engine→node:22555/22556/28000);
every other cross-tier path is denied by default. -/
theorem cross_tier_ingress_only_declared (e : DeployEnv)
    (src dst : SecurityGroupId) (p : Nat)
    (hs : src ∈ tierSgs) (hd : dst ∈ tierSgs) :
    ingressAllowed (mkApp e) src dst p = true ↔ (src, dst, p) ∈ declaredPaths := by
  have hmem : ingressAllowed (mkApp e) src dst p = true ↔
      IngressRule.mk dst (.sg src) p ∈ allIngressRules (mkApp e) :=
    List.elem_iff
  rw [hmem, show allIngressRules (mkApp e) =
      [ { target := .albSg, source := .anyIpv4, port := 80 }
      , { target := .engineSg, source := .sg .albSg, port := 8891 }
      , { target := .rdsSg, source := .sg .engineSg, port := 5432 }
      , { target := .dogeSg, source := .sg .engineSg, port := 22555 }
      , { target := .dogeSg, source := .sg .engineSg, port := 22556 }
      , { target := .dogeSg, source := .sg .engineSg, port := 28000 }
      , { target := .efsSg, source := .sg .dogeSg, port := 2049 } ] from rfl]
  fin_cases hs <;> fin_cases hd <;> simp [declaredPaths]

/-- Witness for C2 at the ALB→engine path on port 8891. -/
theorem cross_tier_ingress_only_declared_witness :
    SecurityGroupId.albSg ∈ tierSgs ∧ SecurityGroupId.engineSg ∈ tierSgs
    ∧ (ingressAllowed (mkApp { account := none, region := none })
        SecurityGroupId.albSg SecurityGroupId.engineSg 8891 = true
        ↔ (SecurityGroupId.albSg, SecurityGroupId.engineSg, 8891)
            ∈ declaredPaths) :=
  ⟨by decide, by decide,
    cross_tier_ingress_only_declared { account := none, region := none }
      SecurityGroupId.albSg SecurityGroupId.engineSg 8891
      (by decide) (by decide)⟩

end FractalDeploy
